import Mathlib

/-!
Verification development for the scraping core of the `crawlabi` repository.

The repository ships two near-duplicate implementations of the scraping
service in `src/scraper.js` (an earlier variant, called V1 below, and a
refactored variant, called V2 below, which adds `_setupResourceBlocking`,
`_extractDataFromElement` and guarded cleanup), plus an independent
Express-based implementation in `src/main.js` (`scrapeSingleUrl`,
`processSelectors`).  All three are embedded below.

JavaScript strings are modelled by Lean `String`; the JS string functions
used by the source (`toLowerCase`, `startsWith`, `includes`, `trim`) are
implemented over `String.data` so that they evaluate by `decide`.
Machine integers do not appear in the modelled code paths (all counts are
small array lengths), so `Nat` is used directly.  Fallible awaited browser
calls are modelled by oracle booleans in environment records that say
whether the call fails, and by `Except` results; JS `try`/`catch` becomes
explicit case analysis on those outcomes.
-/

namespace Crawlabi

/-- Lowercasing as performed by JS `String.prototype.toLowerCase`, modelled
characterwise over the underlying character list. -/
def strLower (s : String) : String := ⟨s.data.map Char.toLower⟩

/-- JS `String.prototype.startsWith`. -/
def strStartsWith (s p : String) : Bool := p.data.isPrefixOf s.data

/-- Helper for substring containment: does `nd` occur inside the list? -/
def infixAux (nd : List Char) : List Char → Bool
  | [] => nd.isEmpty
  | h :: t => nd.isPrefixOf (h :: t) || infixAux nd t

/-- JS `String.prototype.includes`: substring containment. -/
def containsSub (s sub : String) : Bool := infixAux sub.data s.data

/-- Characters trimmed from both ends, as JS `String.prototype.trim`. -/
def trimChars (l : List Char) : List Char :=
  ((l.dropWhile Char.isWhitespace).reverse.dropWhile Char.isWhitespace).reverse

/-- JS `String.prototype.trim`. -/
def strTrim (s : String) : String := ⟨trimChars s.data⟩

/-- Extracted JSON-like values produced by the scrapers: `null`, booleans
(for `exists`), integers (for `count`), strings, and arrays (for
`multiple` extraction). -/
inductive Value where
  | vNull
  | vBool (b : Bool)
  | vNat (n : Nat)
  | vStr (s : String)
  | vList (l : List Value)

/-- A DOM element as the extractors see it: its text content (`none` when
the engine reports `null`), inner HTML, rendered inner text, attributes,
and a `broken` flag meaning that any awaited extraction call on this
element rejects (models detached/crashed element handles). -/
structure Element where
  textContent : Option String
  innerHTML : String
  innerText : String
  attrs : List (String × String)
  broken : Bool

/-- A live page as the extractors see it: an association from CSS query
strings to the (document-ordered) elements they match, plus the set of
query strings whose evaluation throws (invalid selectors). -/
structure Page where
  found : List (String × List Element)
  bad : List String

/-- Elements matched by a query (empty when the query is unknown). -/
def pageMatches (p : Page) (q : String) : List Element :=
  match p.found.find? (fun x => x.1 == q) with
  | some x => x.2
  | none => []

/-- Models `page.$$(query)` / `page.locator(query)`: throws on a bad
query, otherwise yields the matched elements. -/
def queryAll (p : Page) (q : String) : Except Unit (List Element) :=
  if p.bad.contains q then Except.error () else Except.ok (pageMatches p q)

/-- Models `element.getAttribute(name)`: the attribute value or `null`. -/
def getAttributeModel (el : Element) (a : String) : Option String :=
  (el.attrs.find? (fun x => x.1 == a)).map (fun x => x.2)

/-- A selector descriptor as received by the scrapers.  The JS field
`attribute` is spelled `attr` here because `attribute` is reserved in
Lean; `type` is the extraction kind.  The `transform` callback of the
request schema is excluded (it is not serialized into cache keys and no
claim depends on it). -/
structure Selector where
  name : String
  query : String
  type : String
  multiple : Bool
  attr : Option String

/-- JS truthiness for an optional string field: `undefined` and the empty
string are falsy. -/
def truthyStr : Option String → Option String
  | some s => if s = "" then none else some s
  | none => none

/-- JSON serialization of one selector, mirroring `JSON.stringify` on the
objects built by the sources (fields in declaration order, `attribute`
omitted when absent).  Escaping of special characters inside the field
strings is not modelled; no claim depends on it. -/
def serializeSelector (s : Selector) : String :=
  "\x7b\"name\":\"" ++ s.name ++ "\",\"query\":\"" ++ s.query ++
    "\",\"type\":\"" ++ s.type ++ "\",\"multiple\":" ++
    (if s.multiple then "true" else "false") ++
    (match s.attr with
     | some a => ",\"attribute\":\"" ++ a ++ "\""
     | none => "") ++ "\x7d"

/-- JSON serialization of a selector list, as `JSON.stringify` of the
array. -/
def serializeSelectors (l : List Selector) : String :=
  "[" ++ String.intercalate "," (l.map serializeSelector) ++ "]"

/-- Insert-or-overwrite into the result object, as JS property assignment
`results[name] = v` (an existing key keeps its position, a new key is
appended). -/
def objInsert (m : List (String × Value)) (k : String) (v : Value) :
    List (String × Value) :=
  if m.any (fun x => x.1 == k) then
    m.map (fun x => if x.1 == k then (k, v) else x)
  else
    m ++ [(k, v)]

/-- Models `ScraperService._extractDataFromElement(element, type,
attributeName)` of the refactored scraper: `null` for a missing element,
every internal exception caught to `null`, trimmed-or-null text, inner
HTML, attribute lookup guarded by truthiness of the attribute name,
`null` for an unknown type. -/
def extractDataFromElement (el? : Option Element) (ty : String)
    (attributeName : Option String) : Value :=
  match el? with
  | none => Value.vNull
  | some el =>
    if el.broken then Value.vNull
    else if ty = "text" then
      match el.textContent with
      | some s => if strTrim s = "" then Value.vNull else Value.vStr (strTrim s)
      | none => Value.vNull
    else if ty = "html" then Value.vStr el.innerHTML
    else if ty = "attribute" then
      match truthyStr attributeName with
      | some a =>
        match getAttributeModel el a with
        | some v => Value.vStr v
        | none => Value.vNull
      | none => Value.vNull
    else Value.vNull

/-- Result-object key used by the refactored scraper for one selector:
`selector.name || invalid_selector_fallback`. -/
def selKeyV2 (s : Selector) : String :=
  if s.name = "" then "invalid_selector" else s.name

/-- Models one iteration of the selector loop in the refactored
`ScraperService.scrape` (the validity guard, then the
`exists`/`count`/`multiple`/single dispatch, with the per-selector
`catch` resolving to `null`). -/
def scrapeSelectorV2 (p : Page) (s : Selector) : String × Value :=
  if s.query = "" || s.name = "" || s.type = "" then
    (selKeyV2 s, Value.vNull)
  else
    match queryAll p s.query with
    | Except.error _ => (s.name, Value.vNull)
    | Except.ok elements =>
      if s.type = "exists" then
        (s.name, Value.vBool (decide (0 < elements.length)))
      else if s.type = "count" then
        (s.name, Value.vNat elements.length)
      else if s.multiple then
        if 0 < elements.length then
          (s.name, Value.vList (elements.map
            (fun el => extractDataFromElement (some el) s.type s.attr)))
        else
          (s.name, Value.vList [])
      else
        (s.name, extractDataFromElement elements.head? s.type s.attr)

/-- The whole selector loop of the refactored `ScraperService.scrape`,
building the `results` object. -/
def extractAllV2 (p : Page) (sels : List Selector) : List (String × Value) :=
  sels.foldl (fun acc s =>
    let kv := scrapeSelectorV2 p s
    objInsert acc kv.1 kv.2) []

/-- Per-element extraction of the earlier scraper variant, shared between
its `multiple` map and its single-element branch: `count` and `exists`
ignore the element itself; the remaining kinds go through awaited calls
whose failures are caught to `null` (passing an undefined attribute name
to `getAttribute` also rejects and is caught). -/
def extractElemV1 (allCount : Nat) (el : Element) (ty : String)
    (attr : Option String) : Value :=
  if ty = "count" then Value.vNat allCount
  else if ty = "exists" then Value.vBool true
  else if el.broken then Value.vNull
  else if ty = "text" then
    match el.textContent with
    | some s => if strTrim s = "" then Value.vNull else Value.vStr (strTrim s)
    | none => Value.vNull
  else if ty = "html" then Value.vStr el.innerHTML
  else if ty = "attribute" then
    match attr with
    | some a =>
      match getAttributeModel el a with
      | some v => Value.vStr v
      | none => Value.vNull
    | none => Value.vNull
  else Value.vNull

/-- Models one iteration of the selector loop in the earlier
`ScraperService.scrape` variant: a `multiple` selector maps every matched
element through the per-kind switch (so `count` and `exists` produce one
entry per element), a single selector extracts from the first element,
`exists` resolving to `false` and everything else to `null` when nothing
matches; selector-evaluation errors are caught to `null`. -/
def scrapeSelectorV1 (p : Page) (s : Selector) : String × Value :=
  match queryAll p s.query with
  | Except.error _ => (s.name, Value.vNull)
  | Except.ok elements =>
    if s.multiple then
      (s.name, Value.vList (elements.map
        (fun el => extractElemV1 elements.length el s.type s.attr)))
    else
      match elements with
      | [] => (s.name, if s.type = "exists" then Value.vBool false else Value.vNull)
      | el :: _ => (s.name, extractElemV1 elements.length el s.type s.attr)

/-- Empty value used by `processSelectors` in `main.js` on its failure
and no-match paths: `multiple ? [] : null`. -/
def emptyVal (multiple : Bool) : Value :=
  if multiple then Value.vList [] else Value.vNull

/-- Models one iteration of `processSelectors` in `main.js`.  Returns
`none` when the iteration assigns nothing to `data[name]`, which happens
exactly on the `attribute` kind with a falsy `attribute` field (the
`switch` has no branch writing the key then).  A bad query or zero
matches yield the empty value before the kind is examined; extraction
errors on matched elements are caught to the empty value.  The `transform`
hook is not modelled (absent transform leaves the entry unchanged). -/
def processSelectorMain (p : Page) (s : Selector) : Option (String × Value) :=
  if p.bad.contains s.query then
    some (s.name, emptyVal s.multiple)
  else
    match pageMatches p s.query with
    | [] => some (s.name, emptyVal s.multiple)
    | e0 :: rest =>
      let els := e0 :: rest
      if s.type = "exists" then some (s.name, Value.vBool true)
      else if s.type = "count" then some (s.name, Value.vNat els.length)
      else if s.type = "text" then
        if s.multiple then
          if els.any (fun e => e.broken) then some (s.name, emptyVal s.multiple)
          else some (s.name, Value.vList (els.map
            (fun e => Value.vStr (e.textContent.getD ""))))
        else
          if e0.broken then some (s.name, emptyVal s.multiple)
          else some (s.name,
            match e0.textContent with
            | some t => Value.vStr t
            | none => Value.vNull)
      else if s.type = "innerText" then
        if s.multiple then
          if els.any (fun e => e.broken) then some (s.name, emptyVal s.multiple)
          else some (s.name, Value.vList (els.map (fun e => Value.vStr e.innerText)))
        else
          if e0.broken then some (s.name, emptyVal s.multiple)
          else some (s.name, Value.vStr e0.innerText)
      else if s.type = "html" then
        if s.multiple then
          if els.any (fun e => e.broken) then some (s.name, emptyVal s.multiple)
          else some (s.name, Value.vList (els.map (fun e => Value.vStr e.innerHTML)))
        else
          if e0.broken then some (s.name, emptyVal s.multiple)
          else some (s.name, Value.vStr e0.innerHTML)
      else if s.type = "attribute" then
        match truthyStr s.attr with
        | some a =>
          if s.multiple then
            if els.any (fun e => e.broken) then some (s.name, emptyVal s.multiple)
            else some (s.name, Value.vList (els.map (fun e =>
              match getAttributeModel e a with
              | some v => Value.vStr v
              | none => Value.vNull)))
          else
            if e0.broken then some (s.name, emptyVal s.multiple)
            else some (s.name,
              match getAttributeModel e0 a with
              | some v => Value.vStr v
              | none => Value.vNull)
        | none => none
      else none

/-- The whole selector loop of `processSelectors` in `main.js`, building
the `data` object (iterations that assign nothing contribute no key). -/
def processSelectorsMain (p : Page) (sels : List Selector) :
    List (String × Value) :=
  sels.foldl (fun acc s =>
    match processSelectorMain p s with
    | some kv => objInsert acc kv.1 kv.2
    | none => acc) []

/-- An entry of a `node-cache` store: key, stored value, insertion time
(in seconds, the unit of `stdTTL`). -/
structure CEntry (α : Type) where
  key : String
  val : α
  insertedAt : Nat

/-- The TTL both caches are constructed with (`stdTTL: 1800`). -/
def cacheTTL : Nat := 1800

/-- Models `cache.get(key)` at time `now`: a stored entry is visible while
`now` is before its expiry time. -/
def cacheGet {α : Type} (c : List (CEntry α)) (k : String) (now : Nat) :
    Option α :=
  match c.find? (fun e => e.key == k) with
  | some e => if now < e.insertedAt + cacheTTL then some e.val else none
  | none => none

/-- Models `cache.set(key, v)` at time `now` (keys are unique: a new value
replaces any previous entry under the same key). -/
def cacheSet {α : Type} (c : List (CEntry α)) (k : String) (v : α)
    (now : Nat) : List (CEntry α) :=
  ⟨k, v, now⟩ :: c.filter (fun e => !(e.key == k))

/-- Models `ScraperService.clearCache(url)`: with a URL it deletes every
key of the cache that starts with the URL string (`cache.keys().filter(
key => key.startsWith(url))` then `cache.del(keys)`); without, it flushes
the whole cache.  The JS function has no `return` statement, so its
result is `undefined`, modelled as the second component being `none`
(never a count). -/
def clearCacheModel {α : Type} (c : List (CEntry α)) (url? : Option String) :
    List (CEntry α) × Option Nat :=
  match url? with
  | some url =>
    let keys := (c.map (fun e => e.key)).filter (fun k => strStartsWith k url)
    (c.filter (fun e => !(keys.contains e.key)), none)
  | none => ([], none)

/-- Models `NodeCache.del(key)`: removes the entries under the key and
reports how many were removed. -/
def nodeDel {α : Type} (c : List (CEntry α)) (k : String) :
    List (CEntry α) × Nat :=
  ((c.filter (fun e => !(e.key == k))), (c.filter (fun e => e.key == k)).length)

/-- The deletion loop of the `DELETE /api/cache/:url` route: for each key,
delete it and increment the counter when the delete reports success. -/
def delEach {α : Type} : List String → List (CEntry α) → List (CEntry α) × Nat
  | [], c => (c, 0)
  | k :: ks, c =>
    let d := nodeDel c k
    let rest := delEach ks d.1
    (rest.1, (if 0 < d.2 then 1 else 0) + rest.2)

/-- Models the `DELETE /api/cache/:url` route of `main.js`: collect the
keys starting with the URL, delete each, and return the surviving cache
together with the reported `keysDeleted` count. -/
def deleteCacheByUrlModel {α : Type} (c : List (CEntry α)) (url : String) :
    List (CEntry α) × Nat :=
  delEach ((c.map (fun e => e.key)).filter (fun k => strStartsWith k url)) c

/-- Log events emitted by the refactored `ScraperService.retry`: a
warning with the attempt number before each retry, and a final error log
carrying the configured retry count when the error is about to
propagate. -/
inductive RLog where
  | warn (attempt : Nat) (msg : String)
  | fail (attempts : Nat) (msg : String)

/-- Observable outcome of a `retry` run: the propagated result, the
number of invocations of the wrapped operation, the total forced delay,
and the emitted logs in order. -/
structure RetryOut (α : Type) where
  result : Except String α
  calls : Nat
  delay : Nat
  logs : List RLog

/-- The recursion of `ScraperService.retry(fn, op, url, retries)`.  The
`k`-th invocation of the operation (counted from 0) yields `fn k`; on
failure with retries remaining it logs attempt `maxRetries - retries + 1`,
sleeps `retryDelay`, and recurses with one retry fewer; on failure with
none remaining it logs the final message (quoting `this.maxRetries`) and
rethrows the last error unchanged. -/
def retryGo {α : Type} (fn : Nat → Except String α)
    (maxRetries retryDelay : Nat) : Nat → Nat → RetryOut α
  | k, 0 =>
    match fn k with
    | Except.ok a => ⟨Except.ok a, 1, 0, []⟩
    | Except.error e => ⟨Except.error e, 1, 0, [RLog.fail maxRetries e]⟩
  | k, r + 1 =>
    match fn k with
    | Except.ok a => ⟨Except.ok a, 1, 0, []⟩
    | Except.error e =>
      let rest := retryGo fn maxRetries retryDelay (k + 1) r
      ⟨rest.result, rest.calls + 1, rest.delay + retryDelay,
        RLog.warn (maxRetries - (r + 1) + 1) e :: rest.logs⟩

/-- Models a full `ScraperService.retry(fn)` run with the service fields
`maxRetries` and `retryDelay` (the call sites use the default
`retries = this.maxRetries`). -/
def retryModel {α : Type} (fn : Nat → Except String α)
    (maxRetries retryDelay : Nat) : RetryOut α :=
  retryGo fn maxRetries retryDelay 0 maxRetries

/-- Scrape options with the defaults destructured in both
`ScraperService.scrape` and the `main.js` request schema. -/
structure Options where
  timeout : Nat := 30000
  waitForNetworkIdle : Bool := true
  useCache : Bool := true
  blockAds : Bool := true
  blockTrackers : Bool := true
  blockMedia : Bool := false

/-- What the route handler does with one intercepted request. -/
inductive RouteAction where
  | abort
  | allow

/-- An intercepted network request: its URL and browser resource type. -/
structure Request where
  url : String
  resourceType : String

/-- The keyword blocklist `ScraperService.BLOCKED_DOMAINS_KEYWORDS` of the
refactored scraper. -/
def blockedKeywordsV2 : List String :=
  ["adservice", "analytics", "beacon", "doubleclick", "googletagmanager",
   "google-analytics", "facebook.com/tr/", "pixel", "track",
   "scorecardresearch", "adnxs", "adform", "adroll", "adsystem",
   "rubiconproject", "openx", "criteo", ".ads.", "/ads/", " реклама ",
   "googleadservices", "appsflyer", "criteo", "outbrain", "taboola",
   "yieldify"]

/-- The inline `blockedDomains` list of the earlier scraper variant. -/
def blockedDomainsV1 : List String :=
  ["ads", "analytics", "tracking", "doubleclick", "google-analytics",
   "facebook.com", "googletagmanager", "adnxs", "adform", "adroll",
   "adsystem"]

/-- The resource types blocked by `blockMedia` in both scraper
variants. -/
def mediaTypes : List String := ["image", "media", "font"]

/-- Whether the refactored `_setupResourceBlocking` installs a route
handler at all (it returns early when no block flag is set). -/
def routeInstalledV2 (o : Options) : Bool :=
  o.blockAds || o.blockTrackers || o.blockMedia

/-- The route handler installed by `_setupResourceBlocking`: the request
URL is lowercased, then ad/tracker keywords are checked by substring
containment, then the media resource types; anything else continues. -/
def handlerV2 (o : Options) (r : Request) : RouteAction :=
  if (o.blockAds || o.blockTrackers) &&
      blockedKeywordsV2.any (fun k => containsSub (strLower r.url) k) then
    RouteAction.abort
  else if o.blockMedia && mediaTypes.contains r.resourceType then
    RouteAction.abort
  else
    RouteAction.allow

/-- The route handler of the earlier scraper variant: identical shape,
but the URL is matched against the blocklist without lowercasing. -/
def handlerV1 (o : Options) (r : Request) : RouteAction :=
  if (o.blockAds || o.blockTrackers) &&
      blockedDomainsV1.any (fun k => containsSub r.url k) then
    RouteAction.abort
  else if o.blockMedia && mediaTypes.contains r.resourceType then
    RouteAction.abort
  else
    RouteAction.allow

/-- Abort condition of the specification, stated from the words of the
spec (section 4.2): abort if and only if (blockAds or blockTrackers) and
the URL contains some blocklist keyword case-insensitively, or blockMedia
and the resource type is image, media or font. -/
def specAbortCond (o : Options) (r : Request) : Prop :=
  ((o.blockAds || o.blockTrackers) = true ∧
    ∃ k ∈ blockedKeywordsV2, containsSub (strLower r.url) k = true) ∨
  (o.blockMedia = true ∧ r.resourceType ∈ mediaTypes)

/-- The result object produced by one `ScraperService.scrape` run. -/
def ScrapeData : Type := List (String × Value)

/-- The cache key of `ScraperService.scrape`:
`url-JSON.stringify(selectors)`. -/
def cacheKeyV2 (url : String) (sels : List Selector) : String :=
  url ++ "-" ++ serializeSelectors sels

/-- The cache key of `main.js` `createCacheKey(url, selectors)`:
`url:hash` where the hash serializes name, query, type, multiple and
attribute of each selector (the `transform` callback is excluded). -/
def createCacheKeyMain (url : String) (sels : List Selector) : String :=
  url ++ ":" ++ serializeSelectors sels

/-- Outcomes of the awaited browser calls during one attempt of the
refactored `ScraperService.scrape`, from successful page creation onward
(the claims about cleanup condition on the attempt having reached page
creation): whether installing the route handler rejects, whether
`page.goto` rejects, whether the network-idle wait times out, whether
`page.close` rejects, and the page content for extraction. -/
structure AttemptEnv where
  routeFails : Bool
  gotoFails : Bool
  idleTimesOut : Bool
  closeFails : Bool
  page : Page

/-- Observable outcome of one attempt body: the result the closure
returns or throws, the cache after the attempt, how many times
`page.close()` was invoked, and whether the extraction loop ran. -/
structure AttemptOut where
  result : Except String ScrapeData
  cache : List (CEntry ScrapeData)
  closeCalls : Nat
  extractionRan : Bool

/-- Models one attempt body of the refactored `ScraperService.scrape`
(the async closure handed to `retry`), from successful page creation
onward.  `_setupResourceBlocking` is awaited before the `try` block, so a
rejection there propagates without any `page.close()`.  Inside the `try`,
a `goto` failure or an unguarded network-idle timeout jumps to the
`catch`, which closes the page once and rethrows (a rejection of that
`page.close()` replaces the primary error).  On the success path the page
is closed inside the `try`; if that close rejects, the `catch` invokes
`page.close()` a second time and the close error propagates, skipping the
cache write. -/
def attemptV2 (env : AttemptEnv) (url : String) (sels : List Selector)
    (opts : Options) (cache : List (CEntry ScrapeData)) (now : Nat) :
    AttemptOut :=
  if routeInstalledV2 opts && env.routeFails then
    ⟨Except.error "route install failed", cache, 0, false⟩
  else if env.gotoFails then
    ⟨Except.error (if env.closeFails then "page close failed" else "goto failed"),
      cache, 1, false⟩
  else if opts.waitForNetworkIdle && env.idleTimesOut then
    ⟨Except.error (if env.closeFails then "page close failed"
        else "Timeout waiting for networkidle"),
      cache, 1, false⟩
  else
    let data := extractAllV2 env.page sels
    if env.closeFails then
      ⟨Except.error "page close failed", cache, 2, true⟩
    else
      ⟨Except.ok data,
        (if opts.useCache then cacheSet cache (cacheKeyV2 url sels) data now
         else cache), 1, true⟩

/-- The attempt body as the value `retry` sees: its thrown error or its
returned data paired with the cache it produced. -/
def attemptResultV2 (env : AttemptEnv) (url : String) (sels : List Selector)
    (opts : Options) (cache : List (CEntry ScrapeData)) (now : Nat) :
    Except String (ScrapeData × List (CEntry ScrapeData)) :=
  let a := attemptV2 env url sels opts cache now
  a.result.map (fun d => (d, a.cache))

/-- Observable outcome of a full refactored `ScraperService.scrape` call:
result, final cache, number of attempt invocations, total forced retry
delay, and whether the call was answered from the cache. -/
structure ScrapeV2Out where
  result : Except String ScrapeData
  cache : List (CEntry ScrapeData)
  attemptCalls : Nat
  totalDelay : Nat
  fromCacheHit : Bool

/-- The retry phase of the refactored `ScraperService.scrape`: the whole
attempt body is wrapped in `retry` with the service defaults
(`maxRetries = 3`, `retryDelay = 2000`); the outcome of the `k`-th
attempt is driven by `env k`.  Failed attempts leave the cache
unchanged. -/
def scrapeV2Fresh (env : Nat → AttemptEnv) (url : String)
    (sels : List Selector) (opts : Options)
    (cache : List (CEntry ScrapeData)) (now : Nat) : ScrapeV2Out :=
  let r := retryModel (fun k => attemptResultV2 (env k) url sels opts cache now)
    3 2000
  match r.result with
  | Except.ok dc => ⟨Except.ok dc.1, dc.2, r.calls, r.delay, false⟩
  | Except.error e => ⟨Except.error e, cache, r.calls, r.delay, false⟩

/-- Models the refactored `ScraperService.scrape(url, selectors, options)`
at time `now`: on `useCache` a cache hit is returned immediately,
otherwise the attempt body runs under `retry`. -/
def scrapeV2Model (env : Nat → AttemptEnv) (url : String)
    (sels : List Selector) (opts : Options)
    (cache : List (CEntry ScrapeData)) (now : Nat) : ScrapeV2Out :=
  if opts.useCache then
    match cacheGet cache (cacheKeyV2 url sels) now with
    | some d => ⟨Except.ok d, cache, 0, 0, true⟩
    | none => scrapeV2Fresh env url sels opts cache now
  else scrapeV2Fresh env url sels opts cache now

/-- The result object of `scrapeSingleUrl` in `main.js`.  A success
bundle has `title`, `data` and `meta.fromCache`; the failure bundle of
the `catch` path has `error` and `meta.success = false` instead.
`timestamp` and the execution-time strings are not modelled (no claim
depends on them). -/
structure Bundle where
  url : String
  title : Option String
  data : Option (List (String × Value))
  error : Option String
  fromCache : Option Bool
  success : Option Bool

/-- Outcomes of the awaited browser calls during one `scrapeSingleUrl`
run that gets past browser launch and page creation: whether `page.goto`
rejects, whether the network-idle wait times out, the page title, and the
page content. -/
structure MainEnv where
  gotoFails : Bool
  idleTimesOut : Bool
  title : String
  page : Page

/-- Observable outcome of one `scrapeSingleUrl` call: the returned
bundle, the cache afterwards, whether a browser was launched and used,
and the console logs emitted. -/
structure MainOut where
  bundle : Bundle
  cache : List (CEntry Bundle)
  browserUsed : Bool
  logs : List String

/-- The log line of the guarded network-idle wait in `main.js`. -/
def idleLogLine : String := "Network idle timeout exceeded, continuing anyway"

/-- The live-scrape path of `scrapeSingleUrl`: launch, navigate (a
rejection is caught at the function level and turned into an error
bundle, the `finally` closing page and browser), then the network-idle
wait whose timeout is swallowed by `.catch` with a log line, then title
and selector extraction, then the success bundle, cached when `useCache`
is set. -/
def scrapeMainFresh (env : MainEnv) (url : String) (sels : List Selector)
    (opts : Options) (cache : List (CEntry Bundle)) (now : Nat) : MainOut :=
  if env.gotoFails then
    ⟨⟨url, none, none, some "goto failed", none, some false⟩, cache, true, []⟩
  else
    let logs := if opts.waitForNetworkIdle && env.idleTimesOut then [idleLogLine] else []
    let data := processSelectorsMain env.page sels
    let b : Bundle := ⟨url, some env.title, some data, none, some false, none⟩
    let cache2 := if opts.useCache then
        cacheSet cache (createCacheKeyMain url sels) b now
      else cache
    ⟨b, cache2, true, logs⟩

/-- Models `scrapeSingleUrl(url, selectors, options)` of `main.js` at
time `now`: on `options.useCache` a cache hit is returned immediately
with `meta.fromCache` overridden to `true` and no browser interaction;
otherwise the live-scrape path runs. -/
def scrapeSingleUrlModel (env : MainEnv) (url : String)
    (sels : List Selector) (opts : Options)
    (cache : List (CEntry Bundle)) (now : Nat) : MainOut :=
  if opts.useCache then
    match cacheGet cache (createCacheKeyMain url sels) now with
    | some b => ⟨{ b with fromCache := some true }, cache, false, []⟩
    | none => scrapeMainFresh env url sels opts cache now
  else scrapeMainFresh env url sels opts cache now

/-- Whether the shared browsing context and browser process handles are
currently set on the service. -/
structure SessionState where
  context : Bool
  browser : Bool

/-- Outcomes of the awaited close calls during `ScraperService.close`. -/
structure CloseEnv where
  contextCloseFails : Bool
  browserCloseFails : Bool

/-- Observable outcome of a `close()` run: whether it returned normally,
the propagated error if any, which close routines were invoked, the
session references afterwards, and the error logs emitted. -/
structure CloseOut where
  ok : Bool
  errMsg : Option String
  contextCloseCalled : Bool
  browserCloseCalled : Bool
  final : SessionState
  logs : List String

/-- Models the earlier `ScraperService.close` variant: the close calls
are not guarded, so a rejection of `context.close()` propagates at once,
skipping the reference reset and the browser close (and likewise a
rejection of `browser.close()` skips its reset). -/
def closeV1 (st : SessionState) (env : CloseEnv) : CloseOut :=
  if st.context then
    if env.contextCloseFails then
      ⟨false, some "context close failed", true, false, ⟨true, st.browser⟩, []⟩
    else if st.browser then
      if env.browserCloseFails then
        ⟨false, some "browser close failed", true, true, ⟨false, true⟩, []⟩
      else ⟨true, none, true, true, ⟨false, false⟩, []⟩
    else ⟨true, none, true, false, ⟨false, false⟩, []⟩
  else if st.browser then
    if env.browserCloseFails then
      ⟨false, some "browser close failed", false, true, ⟨false, true⟩, []⟩
    else ⟨true, none, false, true, ⟨false, false⟩, []⟩
  else ⟨true, none, false, false, ⟨false, false⟩, []⟩

/-- The context error log line of the refactored `close`. -/
def ctxErrLog : String := "ScraperService: Error closing context"

/-- The browser error log line of the refactored `close`. -/
def brwErrLog : String := "ScraperService: Error closing browser"

/-- Models the refactored `ScraperService.close`: each close call is
wrapped in its own `try`/`catch` that only logs, and both references are
nulled unconditionally, so the function always returns normally. -/
def closeV2 (st : SessionState) (env : CloseEnv) : CloseOut :=
  let cLogs : List String :=
    if st.context && env.contextCloseFails then [ctxErrLog] else []
  let bLogs : List String :=
    if st.browser && env.browserCloseFails then [brwErrLog] else []
  ⟨true, none, st.context, st.browser, ⟨false, false⟩, cLogs ++ bLogs⟩

/-- A sample healthy element with text, markup and one attribute. -/
def elA : Element := ⟨some " Hello ", "<b>h</b>", "Hello", [("href", "/x")], false⟩

/-- A sample page on which the query `a` matches exactly `elA`. -/
def pageA : Page := ⟨[("a", [elA])], []⟩

/-- A sample page on which every query matches nothing. -/
def page0 : Page := ⟨[], []⟩

/-- A `count` descriptor whose query matches nothing on `page0`. -/
def selCount0 : Selector := ⟨"n", "q", "count", false, none⟩

/-- An `exists` descriptor with `multiple = true` whose query matches one
element on `pageA`. -/
def selExistsMulti : Selector := ⟨"x", "a", "exists", true, none⟩

/-- An `attribute` descriptor without an `attribute` field whose query
matches one element on `pageA`. -/
def selAttrNoName : Selector := ⟨"x", "a", "attribute", false, none⟩

/-- An attempt environment in which only the network-idle wait times
out. -/
def idleEnv : AttemptEnv := ⟨false, false, true, false, page0⟩

/-- A one-entry scraper cache whose key is built from target `http://a`
and an empty selector list. -/
def demoCache : List (CEntry ScrapeData) := [⟨"http://a-[]", [], 0⟩]

/-- A healthy `main.js` environment over `pageA`. -/
def mainEnvA : MainEnv := ⟨false, false, "T", pageA⟩

/-- A `main.js` environment over `pageA` in which the network-idle wait
times out. -/
def mainEnvIdle : MainEnv := ⟨false, true, "T", pageA⟩

/-- C1 (counterexample): in the refactored `ScraperService.scrape` the
network-idle wait is not guarded, so with default options an attempt
whose network-idle wait times out throws instead of continuing: the
extraction loop never runs, the retry wrapper invokes the attempt 4
times, and the timeout error propagates — contradicting the claim that
such a timeout is non-fatal and never triggers a retry or error
propagation by itself. -/
theorem c1_counterexample :
    (scrapeV2Model (fun _ => idleEnv) "http://e.com" [] {} [] 0).result
        = Except.error "Timeout waiting for networkidle"
  ∧ (scrapeV2Model (fun _ => idleEnv) "http://e.com" [] {} [] 0).attemptCalls = 4
  ∧ (attemptV2 idleEnv "http://e.com" [] {} [] 0).extractionRan = false :=
  ⟨rfl, rfl, rfl⟩

/-- C1 (amended): in `scrapeSingleUrl` of `main.js` the network-idle
timeout is non-fatal — it is caught and logged and the run continues
with extraction on the DOM state that exists, returning a success
bundle. -/
theorem c1_idle_timeout_nonfatal_main (env : MainEnv) (url : String)
    (sels : List Selector) (opts : Options) (cache : List (CEntry Bundle))
    (now : Nat)
    (hw : opts.waitForNetworkIdle = true) (hi : env.idleTimesOut = true)
    (hg : env.gotoFails = false)
    (hc : cacheGet cache (createCacheKeyMain url sels) now = none) :
    (scrapeSingleUrlModel env url sels opts cache now).logs = [idleLogLine]
  ∧ (scrapeSingleUrlModel env url sels opts cache now).bundle.data
      = some (processSelectorsMain env.page sels)
  ∧ (scrapeSingleUrlModel env url sels opts cache now).bundle.error = none := by
  cases h : opts.useCache <;>
    simp [scrapeSingleUrlModel, scrapeMainFresh, h, hc, hg, hw, hi]

/-- C1 (witness): the amended theorem applied to a concrete idle-timeout
run over `pageA`. -/
theorem c1_witness :
    (scrapeSingleUrlModel mainEnvIdle "http://e.com" [] {} [] 0).logs = [idleLogLine]
  ∧ (scrapeSingleUrlModel mainEnvIdle "http://e.com" [] {} [] 0).bundle.data
      = some (processSelectorsMain mainEnvIdle.page [])
  ∧ (scrapeSingleUrlModel mainEnvIdle "http://e.com" [] {} [] 0).bundle.error = none :=
  c1_idle_timeout_nonfatal_main mainEnvIdle "http://e.com" [] {} [] 0
    rfl rfl rfl rfl

/-- C2 (counterexample): in `processSelectors` of `main.js`, a `count`
descriptor whose query matches zero elements resolves to `null`, not to
the integer `0` the claim requires. -/
theorem c2_counterexample :
    pageMatches page0 "q" = []
  ∧ processSelectorsMain page0 [selCount0] = [("n", Value.vNull)]
  ∧ Value.vNull ≠ Value.vNat 0 :=
  ⟨rfl, rfl, fun h => Value.noConfusion h⟩

/-- C2 (amended): in the refactored `ScraperService.scrape` extraction,
a descriptor whose query matches zero elements (without throwing)
resolves to `false` for `exists`, `0` for `count`, `[]` for any other
kind with `multiple = true`, and `null` otherwise — and the extraction
is a total function, so it never throws. -/
theorem c2_empty_match_v2 (p : Page) (s : Selector)
    (hn : s.name ≠ "") (hq : s.query ≠ "") (ht : s.type ≠ "")
    (h0 : queryAll p s.query = Except.ok []) :
    scrapeSelectorV2 p s =
      (s.name,
        if s.type = "exists" then Value.vBool false
        else if s.type = "count" then Value.vNat 0
        else if s.multiple then Value.vList []
        else Value.vNull) := by
  simp only [scrapeSelectorV2, hn, hq, ht, h0]
  simp [extractDataFromElement]
  split_ifs <;> rfl

/-- C2 (witness): the amended theorem applied to the four kinds of
descriptor over the empty page. -/
theorem c2_witness :
    scrapeSelectorV2 page0 ⟨"n", "q", "exists", false, none⟩ = ("n", Value.vBool false)
  ∧ scrapeSelectorV2 page0 ⟨"n", "q", "count", false, none⟩ = ("n", Value.vNat 0)
  ∧ scrapeSelectorV2 page0 ⟨"n", "q", "text", true, none⟩ = ("n", Value.vList [])
  ∧ scrapeSelectorV2 page0 ⟨"n", "q", "text", false, none⟩ = ("n", Value.vNull) :=
  ⟨c2_empty_match_v2 page0 _ (by decide) (by decide) (by decide) rfl,
   c2_empty_match_v2 page0 _ (by decide) (by decide) (by decide) rfl,
   c2_empty_match_v2 page0 _ (by decide) (by decide) (by decide) rfl,
   c2_empty_match_v2 page0 _ (by decide) (by decide) (by decide) rfl⟩

/-- C3 (counterexample): in the earlier `ScraperService.scrape` variant,
an `exists` descriptor with `multiple = true` and one match yields the
list `[true]`, not the scalar boolean the claim requires. -/
theorem c3_counterexample :
    scrapeSelectorV1 pageA selExistsMulti = ("x", Value.vList [Value.vBool true])
  ∧ (pageMatches pageA "a").length = 1
  ∧ Value.vList [Value.vBool true] ≠ Value.vBool true :=
  ⟨rfl, rfl, fun h => Value.noConfusion h⟩

/-- C3 (amended): in the refactored `ScraperService.scrape` extraction,
an `exists` descriptor resolves to the single boolean
`matches.length > 0` and a `count` descriptor to the single integer
`matches.length`, in both cases regardless of the `multiple` flag. -/
theorem c3_scalar_exists_count_v2 (p : Page) (s : Selector)
    (els : List Element)
    (hn : s.name ≠ "") (hq : s.query ≠ "")
    (h0 : queryAll p s.query = Except.ok els) :
    (s.type = "exists" →
      scrapeSelectorV2 p s = (s.name, Value.vBool (decide (0 < els.length))))
  ∧ (s.type = "count" →
      scrapeSelectorV2 p s = (s.name, Value.vNat els.length)) := by
  constructor <;> intro hty <;>
    simp [scrapeSelectorV2, hn, hq, h0, hty]

/-- C3 (witness): the amended theorem applied to an `exists` and a
`count` descriptor with `multiple = true` and one match. -/
theorem c3_witness :
    scrapeSelectorV2 pageA selExistsMulti = ("x", Value.vBool true)
  ∧ scrapeSelectorV2 pageA ⟨"x", "a", "count", true, none⟩ = ("x", Value.vNat 1) :=
  ⟨(c3_scalar_exists_count_v2 pageA selExistsMulti [elA]
      (by decide) (by decide) rfl).1 rfl,
   (c3_scalar_exists_count_v2 pageA ⟨"x", "a", "count", true, none⟩ [elA]
      (by decide) (by decide) rfl).2 rfl⟩

/-- Behaviour of the retry recursion when every invocation of the
operation fails: starting with `r` retries left at invocation index `k`,
the operation is invoked `r + 1` more times, the forced delay is
`r * retryDelay`, the propagated error is the last invocation's error
unchanged, and the log stream ends with the final error log quoting the
configured retry count. -/
theorem retryGo_always_fails {α : Type} (es : Nat → String) (m d : Nat) :
    ∀ (r k : Nat),
      (retryGo (α := α) (fun j => Except.error (es j)) m d k r).result
          = Except.error (es (k + r))
    ∧ (retryGo (α := α) (fun j => Except.error (es j)) m d k r).calls = r + 1
    ∧ (retryGo (α := α) (fun j => Except.error (es j)) m d k r).delay = r * d
    ∧ ∃ pre, (retryGo (α := α) (fun j => Except.error (es j)) m d k r).logs
          = pre ++ [RLog.fail m (es (k + r))] := by
  intro r
  induction r with
  | zero =>
    intro k
    exact ⟨rfl, rfl, by simp [retryGo], ⟨[], rfl⟩⟩
  | succ n ih =>
    intro k
    obtain ⟨h1, h2, h3, pre, h4⟩ := ih (k + 1)
    have hk : k + 1 + n = k + (n + 1) := by omega
    rw [hk] at h1 h4
    refine ⟨?_, ?_, ?_, ?_⟩
    · simpa [retryGo] using h1
    · simp [retryGo, h2]
    · simp [retryGo, h3, Nat.succ_mul]
    · exact ⟨RLog.warn (m - (n + 1) + 1) (es k) :: pre, by simp [retryGo, h4]⟩

/-- C4 (amended): an operation that fails on every invocation is invoked
by the retry wrapper exactly `maxRetries + 1` times before the error
propagates, with cumulative forced delay `maxRetries × retryDelay`
(fixed, non-exponential, none before the first attempt); the propagated
error is the last invocation's error, unchanged — the attempt count is
not attached to it, appearing only in the final error log. -/
theorem c4_retry_bound {α : Type} (es : Nat → String) (m d : Nat) :
    (retryModel (α := α) (fun j => Except.error (es j)) m d).result
        = Except.error (es m)
  ∧ (retryModel (α := α) (fun j => Except.error (es j)) m d).calls = m + 1
  ∧ (retryModel (α := α) (fun j => Except.error (es j)) m d).delay = m * d
  ∧ ∃ pre, (retryModel (α := α) (fun j => Except.error (es j)) m d).logs
        = pre ++ [RLog.fail m (es m)] := by
  have h := retryGo_always_fails (α := α) es m d m 0
  simpa [retryModel] using h

/-- C4 (counterexample): with the service configuration (3 retries,
2000 ms delay), an operation that always fails with message `boom` is
invoked 4 times and the error finally thrown is the unmodified string
`boom` — it carries no attempt-count annotation (neither `3` nor `4`
occurs in it); the attempt count exists only in the console logs. -/
theorem c4_counterexample :
    (retryModel (α := ScrapeData) (fun _ => Except.error "boom") 3 2000).result
        = Except.error "boom"
  ∧ (retryModel (α := ScrapeData) (fun _ => Except.error "boom") 3 2000).calls = 4
  ∧ (retryModel (α := ScrapeData) (fun _ => Except.error "boom") 3 2000).delay = 6000
  ∧ containsSub "boom" "3" = false
  ∧ containsSub "boom" "4" = false :=
  ⟨rfl, rfl, rfl, rfl, rfl⟩

/-- C5 (counterexample): the route-handler installation of the
refactored `ScraperService.scrape` is awaited after page creation but
before the `try` block, so when it rejects (with the default block flags
installing a handler) the attempt exits with an error and the page close
routine is invoked zero times, not exactly once. -/
theorem c5_counterexample :
    (attemptV2 ⟨true, false, false, false, page0⟩ "u" [] {} [] 0).closeCalls = 0
  ∧ (attemptV2 ⟨true, false, false, false, page0⟩ "u" [] {} [] 0).result
        = Except.error "route install failed" :=
  ⟨rfl, rfl⟩

/-- C5 (amended): on every exit path of a scrape attempt on which the
route-handler installation does not itself reject and the page close
call does not itself reject — in particular on navigation errors, on
network-idle timeouts and on the success path — the page close routine
is invoked exactly once before the result is returned or the error
propagates. -/
theorem c5_close_exactly_once (env : AttemptEnv) (url : String)
    (sels : List Selector) (opts : Options)
    (cache : List (CEntry ScrapeData)) (now : Nat)
    (hr : routeInstalledV2 opts = true → env.routeFails = false)
    (hc : env.closeFails = false) :
    (attemptV2 env url sels opts cache now).closeCalls = 1 := by
  have h1 : (routeInstalledV2 opts && env.routeFails) = false := by
    cases hri : routeInstalledV2 opts
    · simp
    · simp [hr hri]
  unfold attemptV2
  rw [h1]
  simp only [Bool.false_eq_true, if_false]
  split
  · rfl
  · split
    · rfl
    · simp [hc]

/-- C5 (witness): the amended theorem applied to an attempt whose
navigation fails, with default options and a healthy close routine. -/
theorem c5_witness :
    (attemptV2 ⟨false, true, false, false, page0⟩ "u" [] {} [] 0).closeCalls = 1 :=
  c5_close_exactly_once ⟨false, true, false, false, page0⟩ "u" [] {} [] 0
    (fun _ => rfl) rfl

/-- C6 (counterexample): in the earlier `ScraperService.close` variant
the close calls are unguarded, so when `context.close()` rejects the
error propagates to the caller, the browser close is never attempted,
and the context reference is not reset — contradicting the claim that
close errors are always caught and that an error closing one handle does
not prevent attempting the other. -/
theorem c6_counterexample :
    (closeV1 ⟨true, true⟩ ⟨true, false⟩).ok = false
  ∧ (closeV1 ⟨true, true⟩ ⟨true, false⟩).errMsg = some "context close failed"
  ∧ (closeV1 ⟨true, true⟩ ⟨true, false⟩).browserCloseCalled = false
  ∧ (closeV1 ⟨true, true⟩ ⟨true, false⟩).final.context = true :=
  ⟨rfl, rfl, rfl, rfl⟩

/-- C6 (amended): the refactored `ScraperService.close` catches and logs
every close error and never propagates one; it attempts the context
close and the browser close independently of each other's outcome and
resets both references to unset, so a subsequent initialization starts
clean. -/
theorem c6_closeV2_fault_tolerant (st : SessionState) (env : CloseEnv) :
    (closeV2 st env).ok = true
  ∧ (closeV2 st env).errMsg = none
  ∧ (closeV2 st env).contextCloseCalled = st.context
  ∧ (closeV2 st env).browserCloseCalled = st.browser
  ∧ (closeV2 st env).final = ⟨false, false⟩
  ∧ (st.context = true → env.contextCloseFails = true →
      ctxErrLog ∈ (closeV2 st env).logs)
  ∧ (st.browser = true → env.browserCloseFails = true →
      brwErrLog ∈ (closeV2 st env).logs) := by
  refine ⟨rfl, rfl, rfl, rfl, rfl, ?_, ?_⟩ <;>
    intro h1 h2 <;> simp [closeV2, h1, h2]

/-- C6 (witness): the amended theorem applied to a session whose context
and browser close calls both reject. -/
theorem c6_witness :
    (closeV2 ⟨true, true⟩ ⟨true, true⟩).ok = true
  ∧ (closeV2 ⟨true, true⟩ ⟨true, true⟩).errMsg = none
  ∧ (closeV2 ⟨true, true⟩ ⟨true, true⟩).final = ⟨false, false⟩
  ∧ ctxErrLog ∈ (closeV2 ⟨true, true⟩ ⟨true, true⟩).logs
  ∧ brwErrLog ∈ (closeV2 ⟨true, true⟩ ⟨true, true⟩).logs :=
  ⟨(c6_closeV2_fault_tolerant ⟨true, true⟩ ⟨true, true⟩).1,
   (c6_closeV2_fault_tolerant ⟨true, true⟩ ⟨true, true⟩).2.1,
   (c6_closeV2_fault_tolerant ⟨true, true⟩ ⟨true, true⟩).2.2.2.2.1,
   (c6_closeV2_fault_tolerant ⟨true, true⟩ ⟨true, true⟩).2.2.2.2.2.1 rfl rfl,
   (c6_closeV2_fault_tolerant ⟨true, true⟩ ⟨true, true⟩).2.2.2.2.2.2 rfl rfl⟩

/-- Reading a key immediately after writing it, while the TTL has not
elapsed, returns the written value. -/
theorem cacheGet_cacheSet {α : Type} (c : List (CEntry α)) (k : String)
    (v : α) (t t2 : Nat) (h : t2 < t + cacheTTL) :
    cacheGet (cacheSet c k v t) k t2 = some v := by
  simp [cacheGet, cacheSet, List.find?_cons_of_pos _ (by simp : ((⟨k, v, t⟩ : CEntry α).key == k) = true), h]

/-- An attempt environment in which every awaited browser call succeeds,
over `pageA`. -/
def okEnv : AttemptEnv := ⟨false, false, false, false, pageA⟩

/-- A `text` descriptor named `x` whose query matches one element on
`pageA`. -/
def selText : Selector := ⟨"x", "a", "text", false, none⟩

/-- C7 (counterexample): in `ScraperService.scrape` (a cited source of
the claim) there is no `fromCache` marking on either path: a fresh call
and a consecutive cache-hit call within the TTL return the exact same
bare data object — the hit is answered from the cache with zero attempt
invocations, yet the returned map holds exactly the descriptor names and
no `fromCache` key, so neither result is marked `fromCache = true` or
`fromCache = false` as the claim states. -/
theorem c7_counterexample :
    (scrapeV2Model (fun _ => okEnv) "http://e.com" [selText] {} [] 0).result
        = Except.ok [("x", Value.vStr "Hello")]
  ∧ (scrapeV2Model (fun _ => okEnv) "http://e.com" [selText] {}
        (scrapeV2Model (fun _ => okEnv) "http://e.com" [selText] {} [] 0).cache
        10).result
        = Except.ok [("x", Value.vStr "Hello")]
  ∧ (scrapeV2Model (fun _ => okEnv) "http://e.com" [selText] {}
        (scrapeV2Model (fun _ => okEnv) "http://e.com" [selText] {} [] 0).cache
        10).fromCacheHit = true
  ∧ (scrapeV2Model (fun _ => okEnv) "http://e.com" [selText] {}
        (scrapeV2Model (fun _ => okEnv) "http://e.com" [selText] {} [] 0).cache
        10).attemptCalls = 0
  ∧ ([("x", Value.vStr "Hello")].map Prod.fst = ["x"]
      ∧ "fromCache" ∉ [("x", Value.vStr "Hello")].map Prod.fst) :=
  ⟨rfl, rfl, rfl, rfl, rfl, by decide⟩

/-- C7 (amended): with `useCache = true` and a fresh first call (cache
miss, successful navigation), a second `scrapeSingleUrl` call in
`main.js` for the same target and descriptors within the TTL window
returns the identical `data`, is answered from the cache without any
browser interaction (the second call's environment is arbitrary and
unused), is marked `fromCache = true`, and leaves the cache unchanged,
while the first, freshly computed result is marked `fromCache = false`;
`ScraperService.scrape` shares the byte-identical-data and
answered-from-cache behaviour but returns the stored data bare, with no
`fromCache` marking on either path. -/
theorem c7_cache_idempotent (env1 env2 : MainEnv) (url : String)
    (sels : List Selector) (opts : Options) (cache : List (CEntry Bundle))
    (now1 now2 : Nat)
    (hu : opts.useCache = true)
    (hg : env1.gotoFails = false)
    (hmiss : cacheGet cache (createCacheKeyMain url sels) now1 = none)
    (ht : now2 < now1 + cacheTTL) :
    (scrapeSingleUrlModel env1 url sels opts cache now1).bundle.fromCache = some false
  ∧ (scrapeSingleUrlModel env2 url sels opts
      (scrapeSingleUrlModel env1 url sels opts cache now1).cache now2).bundle.fromCache
        = some true
  ∧ (scrapeSingleUrlModel env2 url sels opts
      (scrapeSingleUrlModel env1 url sels opts cache now1).cache now2).bundle.data
        = (scrapeSingleUrlModel env1 url sels opts cache now1).bundle.data
  ∧ (scrapeSingleUrlModel env1 url sels opts cache now1).bundle.data
        = some (processSelectorsMain env1.page sels)
  ∧ (scrapeSingleUrlModel env2 url sels opts
      (scrapeSingleUrlModel env1 url sels opts cache now1).cache now2).browserUsed
        = false
  ∧ (scrapeSingleUrlModel env2 url sels opts
      (scrapeSingleUrlModel env1 url sels opts cache now1).cache now2).cache
        = (scrapeSingleUrlModel env1 url sels opts cache now1).cache := by
  have h1 : scrapeSingleUrlModel env1 url sels opts cache now1 =
      scrapeMainFresh env1 url sels opts cache now1 := by
    simp [scrapeSingleUrlModel, hu, hmiss]
  have h2 : scrapeMainFresh env1 url sels opts cache now1 =
      ⟨⟨url, some env1.title, some (processSelectorsMain env1.page sels), none,
          some false, none⟩,
        cacheSet cache (createCacheKeyMain url sels)
          ⟨url, some env1.title, some (processSelectorsMain env1.page sels), none,
            some false, none⟩ now1,
        true,
        if opts.waitForNetworkIdle && env1.idleTimesOut then [idleLogLine] else []⟩ := by
    simp [scrapeMainFresh, hg, hu]
  have hhit : cacheGet (scrapeSingleUrlModel env1 url sels opts cache now1).cache
      (createCacheKeyMain url sels) now2 =
      some ⟨url, some env1.title, some (processSelectorsMain env1.page sels), none,
        some false, none⟩ := by
    rw [h1, h2]
    exact cacheGet_cacheSet _ _ _ _ _ ht
  have h3 : scrapeSingleUrlModel env2 url sels opts
      (scrapeSingleUrlModel env1 url sels opts cache now1).cache now2 =
      ⟨⟨url, some env1.title, some (processSelectorsMain env1.page sels), none,
          some true, none⟩,
        (scrapeSingleUrlModel env1 url sels opts cache now1).cache, false, []⟩ := by
    generalize hc1 : (scrapeSingleUrlModel env1 url sels opts cache now1).cache = c1 at hhit ⊢
    simp [scrapeSingleUrlModel, hu, hhit]
  rw [h3, h1, h2]
  exact ⟨rfl, rfl, rfl, rfl, rfl, rfl⟩

/-- C7 (witness): the theorem applied to two concrete consecutive calls
over `pageA`, the second ten seconds later with an unrelated environment
whose navigation would fail if consulted. -/
theorem c7_witness :
    (scrapeSingleUrlModel mainEnvA "http://e.com" [selCount0] {} [] 0).bundle.fromCache
        = some false
  ∧ (scrapeSingleUrlModel ⟨true, false, "X", page0⟩ "http://e.com" [selCount0] {}
      (scrapeSingleUrlModel mainEnvA "http://e.com" [selCount0] {} [] 0).cache 10).bundle.fromCache
        = some true
  ∧ (scrapeSingleUrlModel ⟨true, false, "X", page0⟩ "http://e.com" [selCount0] {}
      (scrapeSingleUrlModel mainEnvA "http://e.com" [selCount0] {} [] 0).cache 10).bundle.data
        = (scrapeSingleUrlModel mainEnvA "http://e.com" [selCount0] {} [] 0).bundle.data
  ∧ (scrapeSingleUrlModel mainEnvA "http://e.com" [selCount0] {} [] 0).bundle.data
        = some (processSelectorsMain mainEnvA.page [selCount0])
  ∧ (scrapeSingleUrlModel ⟨true, false, "X", page0⟩ "http://e.com" [selCount0] {}
      (scrapeSingleUrlModel mainEnvA "http://e.com" [selCount0] {} [] 0).cache 10).browserUsed
        = false
  ∧ (scrapeSingleUrlModel ⟨true, false, "X", page0⟩ "http://e.com" [selCount0] {}
      (scrapeSingleUrlModel mainEnvA "http://e.com" [selCount0] {} [] 0).cache 10).cache
        = (scrapeSingleUrlModel mainEnvA "http://e.com" [selCount0] {} [] 0).cache :=
  c7_cache_idempotent mainEnvA ⟨true, false, "X", page0⟩ "http://e.com"
    [selCount0] {} [] 0 10 rfl rfl rfl (by decide)

/-- C8 (counterexample): the earlier scraper variant matches its
blocklist against the raw request URL without lowercasing, so a request
whose URL contains `ANALYTICS` — a blocklist keyword under the claimed
case-insensitive matching, present in both blocklists — is allowed
through instead of aborted. -/
theorem c8_counterexample :
    handlerV1 {} ⟨"https://X.com/ANALYTICS/a.js", "script"⟩ = RouteAction.allow
  ∧ containsSub (strLower "https://X.com/ANALYTICS/a.js") "analytics" = true
  ∧ containsSub "https://X.com/ANALYTICS/a.js" "analytics" = false
  ∧ "analytics" ∈ blockedDomainsV1
  ∧ "analytics" ∈ blockedKeywordsV2 :=
  ⟨rfl, rfl, rfl, by decide, by decide⟩

/-- C8 (amended): the refactored interceptor
(`_setupResourceBlocking`) aborts a request if and only if (blockAds or
blockTrackers) holds and the lowercased URL contains some blocklist
keyword, or blockMedia holds and the resource type is image, media or
font; every other request continues, and when no block flag is set no
route handler is installed at all. -/
theorem c8_interceptor_v2 (o : Options) (r : Request) :
    (handlerV2 o r = RouteAction.abort ↔ specAbortCond o r)
  ∧ (routeInstalledV2 o = false ↔
      (o.blockAds = false ∧ o.blockTrackers = false ∧ o.blockMedia = false)) := by
  constructor
  · unfold handlerV2 specAbortCond
    split_ifs with h1 h2
    · rw [Bool.and_eq_true] at h1
      rw [List.any_eq_true] at h1
      exact ⟨fun _ => Or.inl ⟨h1.1, h1.2⟩, fun _ => rfl⟩
    · rw [Bool.and_eq_true] at h2
      have hm : r.resourceType ∈ mediaTypes := by
        have := h2.2
        simpa using this
      exact ⟨fun _ => Or.inr ⟨h2.1, hm⟩, fun _ => rfl⟩
    · constructor
      · intro habs
        exact habs.elim
      · rintro (⟨hA, k, hk, hks⟩ | ⟨hM, hmem⟩)
        · exact absurd (by rw [hA, Bool.true_and, List.any_eq_true]; exact ⟨k, hk, hks⟩) h1
        · exact absurd (by rw [hM, Bool.true_and]; simpa using hmem) h2
  · unfold routeInstalledV2
    constructor
    · intro h
      rcases Bool.or_eq_false_iff.mp h with ⟨hab, hm⟩
      rcases Bool.or_eq_false_iff.mp hab with ⟨ha, hb⟩
      exact ⟨ha, hb, hm⟩
    · rintro ⟨ha, hb, hm⟩
      rw [ha, hb, hm]
      rfl

/-- Deleting a list of keys one by one keeps exactly the entries whose
key is not among the deleted keys. -/
theorem delEach_surviving {α : Type} :
    ∀ (ks : List String) (c : List (CEntry α)),
      (delEach ks c).1 = c.filter (fun e => !(ks.contains e.key)) := by
  intro ks
  induction ks with
  | nil =>
    intro c
    simp [delEach]
  | cons k ks ih =>
    intro c
    simp only [delEach, nodeDel, ih, List.filter_filter]
    congr 1
    funext e
    by_cases he : e.key = k <;> simp [List.contains_cons, he, Bool.and_comm]

/-- Deleting a duplicate-free list of keys, each of which is the key of
some entry, reports exactly as many deletions as there are keys. -/
theorem delEach_count {α : Type} :
    ∀ (ks : List String) (c : List (CEntry α)), ks.Nodup →
      (∀ k ∈ ks, ∃ e ∈ c, e.key = k) → (delEach ks c).2 = ks.length := by
  intro ks
  induction ks with
  | nil => intro c _ _; rfl
  | cons k ks ih =>
    intro c hnd hmem
    obtain ⟨e, he, hek⟩ := hmem k (by simp)
    have hpos : 0 < (c.filter (fun x => x.key == k)).length := by
      refine List.length_pos_of_mem (a := e) ?_
      rw [List.mem_filter]
      exact ⟨he, by simp [hek]⟩
    have hrec : (delEach ks (c.filter (fun x => !(x.key == k)))).2 = ks.length := by
      refine ih _ hnd.of_cons ?_
      intro k2 hk2
      obtain ⟨e2, he2, he2k⟩ := hmem k2 (by simp [hk2])
      have hne : k2 ≠ k := by
        rintro rfl
        exact (List.nodup_cons.mp hnd).1 hk2
      refine ⟨e2, ?_, he2k⟩
      rw [List.mem_filter]
      exact ⟨he2, by simp [he2k, hne]⟩
    simp [delEach, nodeDel, hpos, hrec, Nat.add_comm]

/-- C9 (counterexample): `ScraperService.clearCache` with a target
removes the matching entries but has no return value: on a cache holding
one entry under a key starting with the target, the call empties the
cache yet returns no count at all (rather than the count `1` the claim
requires). -/
theorem c9_counterexample :
    demoCache.length = 1
  ∧ clearCacheModel demoCache (some "http://a") = ([], none) :=
  ⟨rfl, rfl⟩

/-- C9 (amended): clearing with a target removes exactly the entries
whose full cache key (the target followed by the serialized descriptor
list) starts with the target string, leaving the others untouched;
clearing with no argument removes all entries; the count of removed
entries is returned by the per-URL HTTP route (given the distinct keys a
`node-cache` store maintains), while `ScraperService.clearCache` itself
returns no count. -/
theorem c9_cache_clear (c : List (CEntry Bundle)) (url : String)
    (c2 : List (CEntry ScrapeData)) (url2 : String)
    (h : (c.map (fun e => e.key)).Nodup) :
    (∀ e, e ∈ (deleteCacheByUrlModel c url).1 ↔
      (e ∈ c ∧ strStartsWith e.key url = false))
  ∧ (deleteCacheByUrlModel c url).2 =
      (c.filter (fun e => strStartsWith e.key url)).length
  ∧ (clearCacheModel c2 none).1 = []
  ∧ (clearCacheModel c2 (some url2)).2 = none := by
  refine ⟨?_, ?_, rfl, rfl⟩
  · intro e
    unfold deleteCacheByUrlModel
    rw [delEach_surviving, List.mem_filter]
    constructor
    · rintro ⟨hec, hkey⟩
      refine ⟨hec, ?_⟩
      cases hws : strStartsWith e.key url
      · rfl
      · exfalso
        have hmemk : e.key ∈ (c.map (fun e => e.key)).filter
            (fun k => strStartsWith k url) := by
          rw [List.mem_filter]
          exact ⟨List.mem_map.mpr ⟨e, hec, rfl⟩, hws⟩
        have hcont : ((c.map (fun e => e.key)).filter
            (fun k => strStartsWith k url)).contains e.key = true :=
          List.elem_iff.mpr hmemk
        rw [hcont] at hkey
        exact Bool.false_ne_true hkey
    · rintro ⟨hec, hns⟩
      refine ⟨hec, ?_⟩
      have hnot : e.key ∉ (c.map (fun e => e.key)).filter
          (fun k => strStartsWith k url) := by
        rw [List.mem_filter]
        rintro ⟨_, hws⟩
        rw [hns] at hws
        exact Bool.false_ne_true hws
      cases hc : ((c.map (fun e => e.key)).filter
          (fun k => strStartsWith k url)).contains e.key
      · rfl
      · exact absurd (List.elem_iff.mp hc) hnot
  · unfold deleteCacheByUrlModel
    rw [delEach_count _ _ (h.filter _) ?side]
    · rw [← List.countP_eq_length_filter, ← List.countP_eq_length_filter,
        List.countP_map]
      rfl
    case side =>
      intro k hk
      rw [List.mem_filter] at hk
      obtain ⟨e, hec, hek⟩ := List.mem_map.mp hk.1
      exact ⟨e, hec, hek⟩

/-- A cache entry whose key starts with the target `http://a`. -/
def entA : CEntry Bundle := ⟨"http://a-k", ⟨"u", none, none, none, none, none⟩, 0⟩

/-- A cache entry whose key does not start with the target `http://a`. -/
def entB : CEntry Bundle := ⟨"http://b-k", ⟨"v", none, none, none, none, none⟩, 0⟩

/-- C9 (witness): the amended theorem applied to a two-entry cache in
which only the first key starts with the target. -/
theorem c9_witness :
    (entB ∈ (deleteCacheByUrlModel [entA, entB] "http://a").1 ↔
      (entB ∈ [entA, entB] ∧ strStartsWith entB.key "http://a" = false))
  ∧ (deleteCacheByUrlModel [entA, entB] "http://a").2 =
      ([entA, entB].filter (fun e => strStartsWith e.key "http://a")).length
  ∧ (clearCacheModel ([] : List (CEntry ScrapeData)) none).1 = []
  ∧ (clearCacheModel ([] : List (CEntry ScrapeData)) (some "u")).2 = none := by
  have h := c9_cache_clear [entA, entB] "http://a"
    ([] : List (CEntry ScrapeData)) "u" (by decide)
  exact ⟨h.1 entB, h.2.1, h.2.2.1, h.2.2.2⟩

/-- C10 (code_bug evaluation): on a page with one element matching `a`,
an `attribute` descriptor named `x` that lacks an `attribute` field
contributes no key at all to the data map of `processSelectors` in
`main.js` — the returned map is empty — whereas the refactored
`ScraperService` extraction resolves the same descriptor to an entry
holding `null`, as the claim requires. -/
theorem c10_attribute_entry_dropped :
    processSelectorsMain pageA [selAttrNoName] = []
  ∧ extractAllV2 pageA [selAttrNoName] = [("x", Value.vNull)]
  ∧ (pageMatches pageA "a").length = 1 :=
  ⟨rfl, rfl, rfl⟩

end Crawlabi
